import Mathlib

/-!
Verification of the CERRA point-extraction pipeline and the weather-formula
library of the `diverse` repository.

The Python notebooks are shallowly embedded as follows.

* GDAL raster datasets become `RasterData`: a list of bands (each carrying an
  association-list metadata dictionary and a single-pixel read function
  modelling `ReadAsArray(col, row, 1, 1)`), pixel sizes, and a geotransform.
* The black-box GDAL reprojection (`gdal.Translate` to an in-memory VRT
  followed by `gdal.Warp` with bilinear resampling, then `gdal.Open` /
  `gdal.Unlink`) is modelled as an oracle attached to the source dataset
  (`Dataset.warpOracle`): the warped raster is supplied by the environment,
  exactly as the source consumes GDAL as a black box.
* Python float arithmetic on coordinates is embedded as exact rational
  arithmetic (`ℚ`); every finite IEEE double is a rational, and none of the
  verified claims depends on rounding.  The numpy formula functions
  (`exp`, `arctan2`, `sqrt`, `%`) are embedded over `ℝ`.
* Exceptions raised by the Python code are embedded as `Except.error`;
  the `return None` early exits of the point sampler are `Option.none`
  inside an `Except.ok`.
-/

/- ### Data model -/

/-- A coordinate reference system handle (`osr.SpatialReference`); the
pipeline only threads it through to the warp black box, so it is opaque. -/
abbrev CRS := String

/-- The six-entry GDAL geotransform tuple `gt`; the source reads
`gt[0], gt[1], gt[3], gt[5]`. -/
structure GeoTransform where
  g0 : ℚ
  g1 : ℚ
  g2 : ℚ
  g3 : ℚ
  g4 : ℚ
  g5 : ℚ
deriving DecidableEq

/-- One GDAL raster band: its metadata dictionary (`band.GetMetadata()`,
an association list of string keys and values) and its single-pixel read
`band.ReadAsArray(col, row, 1, 1)`, which can yield no data (`None`). -/
structure Band where
  metadata : List (String × String)
  read : ℤ → ℤ → Option ℤ

/-- Default band used only for the (never-exercised) out-of-range index
case of `GetRasterBand`. -/
def defaultBand : Band :=
  { metadata := [], read := fun _ _ => none }

/-- An opened multi-band raster (the part of a GDAL dataset the code reads). -/
structure RasterData where
  bands : List Band
  RasterXSize : ℤ
  RasterYSize : ℤ
  geotransform : GeoTransform
  projection : String

/-- `ds.RasterCount`. -/
def RasterData.RasterCount (d : RasterData) : ℕ :=
  d.bands.length

/-- `ds.GetRasterBand(i)` with GDAL's 1-based band indices; for the valid
indices `1 ≤ i ≤ RasterCount` this is exactly `bands[i-1]`. -/
def RasterData.GetRasterBand (d : RasterData) (i : ℕ) : Band :=
  d.bands.getD (i - 1) defaultBand

/-- `ds.GetGeoTransform()`. -/
def RasterData.GetGeoTransform (d : RasterData) : GeoTransform :=
  d.geotransform

/-- An opened GRIB dataset together with the black-box behaviour of
`gdal.Translate` + `gdal.Warp` on it: `warpOracle bandList targetCRS` is the
raster GDAL would produce by extracting `bandList` and warping to
`targetCRS` with bilinear resampling. -/
structure Dataset where
  data : RasterData
  warpOracle : List ℕ → CRS → RasterData

/-- One vector layer (`shp.GetLayer()`): its point geometries, each read via
`geom.GetX()` and `geom.GetY()`, and its spatial reference
(`layer.GetSpatialRef()`). -/
structure Layer where
  points : List (ℚ × ℚ)
  spatialRef : CRS

/-- An opened shapefile. -/
structure Shapefile where
  layer : Layer

/-- `shp_with_points.GetLayer()`. -/
def Shapefile.GetLayer (s : Shapefile) : Layer :=
  s.layer

/-- `layer.GetSpatialRef()`. -/
def Layer.GetSpatialRef (l : Layer) : CRS :=
  l.spatialRef

/- ### Band Selector: `get_bands_based_on_grib_element` -/

/-- The loop body of `get_bands_based_on_grib_element`, iterating over the
remaining 0-based loop counters `j` (the Python loop runs
`for i in range(1, RasterCount + 1)`, so the band index is `i = j + 1`) and
carrying the accumulator `matching_bands`.  The guard transcribes
`if 'GRIB_ELEMENT' in metadata and metadata['GRIB_ELEMENT'] == met_var`,
whose two short-circuited tests are together equivalent to the dictionary
lookup returning exactly `met_var`. -/
def get_bands_go (d : RasterData) (met_var : String) :
    List ℕ → List ℕ → List ℕ
  | [], matching_bands => matching_bands
  | j :: rest, matching_bands =>
    let i := j + 1
    let band := d.GetRasterBand i
    let metadata := band.metadata
    if metadata.lookup "GRIB_ELEMENT" = some met_var then
      get_bands_go d met_var rest (matching_bands ++ [i])
    else
      get_bands_go d met_var rest matching_bands

/-- `get_bands_based_on_grib_element(grib_file, met_var)`: the 1-based
indices of the bands whose `GRIB_ELEMENT` metadata tag equals `met_var`. -/
def get_bands_based_on_grib_element (grib_file : RasterData) (met_var : String) : List ℕ :=
  get_bands_go grib_file met_var (List.range grib_file.RasterCount) []

/-- Python dictionary subscript `m[k]`: raises `KeyError` when absent. -/
def dict_getitem (m : List (String × String)) (k : String) : Except String String :=
  match m.lookup k with
  | some v => Except.ok v
  | none => Except.error "KeyError"

/-- Exception-explicit rendering of the Band Selector loop: the membership
guard `'GRIB_ELEMENT' in metadata` is transcribed as a test on the key list,
and the subsequent subscript `metadata['GRIB_ELEMENT']` is the raising
`dict_getitem`.  Used to verify that the function returns normally. -/
def get_bands_except_go (d : RasterData) (met_var : String) :
    List ℕ → List ℕ → Except String (List ℕ)
  | [], matching_bands => Except.ok matching_bands
  | j :: rest, matching_bands =>
    let i := j + 1
    let metadata := (d.GetRasterBand i).metadata
    if "GRIB_ELEMENT" ∈ metadata.map Prod.fst then
      match dict_getitem metadata "GRIB_ELEMENT" with
      | Except.error e => Except.error e
      | Except.ok tag =>
        if tag = met_var then get_bands_except_go d met_var rest (matching_bands ++ [i])
        else get_bands_except_go d met_var rest matching_bands
    else get_bands_except_go d met_var rest matching_bands

/-- `get_bands_based_on_grib_element` with the possibility of a raised
`KeyError` made explicit. -/
def get_bands_except (grib_file : RasterData) (met_var : String) : Except String (List ℕ) :=
  get_bands_except_go grib_file met_var (List.range grib_file.RasterCount) []

/- ### Reprojector: `warp_CERRA_to_targetCRS` -/

/-- `warp_CERRA_to_targetCRS(cerra_data, list_of_bands_to_warp, target_crs)`.
The GDAL calls (`gdal.Translate` of the selected bands to the in-memory VRT
`/vsimem/temp_band.vrt`, `gdal.Warp` with bilinear resampling to the fixed
in-memory name `/vsimem/output_in_memory.tif`, the `gdal.Open`s, and the
`gdal.Unlink` of the VRT) are the black-box oracle attached to the dataset;
the function returns the fixed in-memory name and the warped raster. -/
def warp_CERRA_to_targetCRS (cerra_data : Dataset) (list_of_bands_to_warp : List ℕ)
    (target_crs : CRS) : String × RasterData :=
  ("/vsimem/output_in_memory.tif", cerra_data.warpOracle list_of_bands_to_warp target_crs)

/- ### Point Sampler: `get_raster_value_at_point` -/

/-- Python `int()` applied to a (real-valued) quotient: truncation toward
zero, i.e. floor for non-negative arguments and ceiling for negative ones. -/
def pyInt (q : ℚ) : ℤ :=
  if 0 ≤ q then ⌊q⌋ else ⌈q⌉

/-- `col = int((x - gt[0]) / gt[1])` of the point sampler. -/
def pixel_col (gt : GeoTransform) (x : ℚ) : ℤ :=
  pyInt ((x - gt.g0) / gt.g1)

/-- `row = int((y - gt[3]) / gt[5])` of the point sampler. -/
def pixel_row (gt : GeoTransform) (y : ℚ) : ℤ :=
  pyInt ((y - gt.g3) / gt.g5)

/-- Drops everything from the last `'Z'` of the list on: `some` of the text
before the last `'Z'` when one occurs, `none` otherwise.  This is how the
greedy group `(.*)` of the pattern `' REF_TIME=(.*)Z'` captures. -/
def beforeLastZ (l : List Char) : Option (List Char) :=
  match l.reverse.dropWhile (fun c => c ≠ 'Z') with
  | [] => none
  | _ :: t => some t.reverse

/-- Models `re.search(' REF_TIME=(.*)Z', s)` on a single-line string `s`:
the match starts at the leftmost occurrence of the literal `' REF_TIME='`
that is followed by a later `'Z'`, and the greedy group runs to the last
such `'Z'`; `none` when the pattern does not match anywhere. -/
def searchRefTime : List Char → Option (List Char)
  | [] => none
  | c :: rest =>
    if (c :: rest).take 10 = " REF_TIME=".toList then
      match beforeLastZ ((c :: rest).drop 10) with
      | some grp => some grp
      | none => searchRefTime rest
    else searchRefTime rest

/-- The per-band loop of `get_raster_value_at_point`
(`for timestamp in range(1, ds.RasterCount + 1)`), over the remaining
0-based loop counters and the `values` and `time` accumulators.  For each
band it extracts the reference timestamp from the `GRIB_IDS` metadata text
(a missing key raises `KeyError`; a failed regex search makes `.group(1)`
raise `AttributeError`; `pd.to_datetime` is modelled as the identity on the
matched text), then reads the single pixel, returning `None` when the read
yields no data.  The source's `if not band` validity check is unreachable:
`band.GetMetadata()` on the line above would already have raised for an
invalid band, and in-range indices are always valid. -/
def sample_bands_go (ds : RasterData) (col row : ℤ) :
    List ℕ → List ℤ → List String → Except String (Option (List ℤ × List String))
  | [], values, time => Except.ok (some (values, time))
  | j :: rest, values, time =>
    let band := ds.GetRasterBand (j + 1)
    match band.metadata.lookup "GRIB_IDS" with
    | none => Except.error "KeyError: GRIB_IDS"
    | some ids =>
      match searchRefTime ids.toList with
      | none => Except.error "AttributeError: NoneType object has no attribute group"
      | some grp =>
        let time := time ++ [String.mk grp]
        match band.read col row with
        | none => Except.ok none
        | some v => sample_bands_go ds col row rest (values ++ [v]) time

/-- `get_raster_value_at_point(ds, gt, x, y)`: maps the point to a pixel
index by truncating division, returns `None` (embedded as `Except.ok none`)
when the index is out of the raster bounds or a read yields no data, and
otherwise the per-band values paired with the extracted timestamps. -/
def get_raster_value_at_point (ds : RasterData) (gt : GeoTransform) (x y : ℚ) :
    Except String (Option (List ℤ × List String)) :=
  let col := pixel_col gt x
  let row := pixel_row gt y
  if col < 0 ∨ col ≥ ds.RasterXSize ∨ row < 0 ∨ row ≥ ds.RasterYSize then
    Except.ok none
  else
    sample_bands_go ds col row (List.range ds.RasterCount) [] []

/- ### Pipeline Orchestrator: `get_point_values_of_CERRA_grib` -/

/-- The per-point loop of `get_point_values_of_CERRA_grib`, carrying the
`values_all_points`, `coord_points` and `time_all_points` accumulators and
the current value of the loop variable `time` (`none` before the first
iteration).  The tuple unpacking
`values, time = get_raster_value_at_point(...)` raises `TypeError` when the
sampler returned `None`. -/
def sample_points_go (output_dataset : RasterData) (raster_gt : GeoTransform) :
    List (ℚ × ℚ) → List (List ℤ) → List (ℚ × ℚ) → List (List String) → Option (List String) →
    Except String (List (List ℤ) × List (ℚ × ℚ) × List (List String) × Option (List String))
  | [], values_all_points, coord_points, time_all_points, time =>
    Except.ok (values_all_points, coord_points, time_all_points, time)
  | (x, y) :: rest, values_all_points, coord_points, time_all_points, _ =>
    match get_raster_value_at_point output_dataset raster_gt x y with
    | Except.error e => Except.error e
    | Except.ok none => Except.error "TypeError: cannot unpack non-iterable NoneType object"
    | Except.ok (some (values, time)) =>
      sample_points_go output_dataset raster_gt rest
        (values_all_points ++ [values]) (coord_points ++ [(x, y)])
        (time_all_points ++ [time]) (some time)

/-- `get_point_values_of_CERRA_grib(shp_with_points, cerra_grib, meteo_index)`:
select the matching bands, warp them to the point layer's spatial reference,
sample every point, and return the per-point value lists, the coordinates,
and the final value of the loop variable `time` (the last processed point's
timestamp list).  Returning `time` after an empty loop raises `NameError`
in Python; the accumulated `time_all_points` is dropped, exactly as in the
source. -/
def get_point_values_of_CERRA_grib (shp_with_points : Shapefile) (cerra_grib : Dataset)
    (meteo_index : String) :
    Except String (List (List ℤ) × List (ℚ × ℚ) × List String) :=
  let layer := shp_with_points.GetLayer
  let target_crs := layer.GetSpatialRef
  let bands_with_wdir := get_bands_based_on_grib_element cerra_grib.data meteo_index
  let warped := warp_CERRA_to_targetCRS cerra_grib bands_with_wdir target_crs
  let output_dataset := warped.2
  let raster_gt := output_dataset.GetGeoTransform
  match sample_points_go output_dataset raster_gt layer.points [] [] [] none with
  | Except.error e => Except.error e
  | Except.ok (values_all_points, coord_points, _time_all_points, time) =>
    match time with
    | none => Except.error "NameError: name time is not defined"
    | some t => Except.ok (values_all_points, coord_points, t)

/-- The reprojected raster the orchestrator samples against: the warp
oracle applied to the selected bands and the point layer's reference. -/
def pipeline_warped (shp : Shapefile) (g : Dataset) (meteo_index : String) : RasterData :=
  (warp_CERRA_to_targetCRS g (get_bands_based_on_grib_element g.data meteo_index)
    shp.GetLayer.GetSpatialRef).2

/- ### Weather Formula Library (`weather_transformations.ipynb`) -/

/-- `np.arctan2(y, x)`: the angle of the point `(x, y)`, in `(-pi, pi]`,
embedded as the complex argument of `x + y*i`. -/
noncomputable def arctan2 (y x : ℝ) : ℝ :=
  Complex.arg (x + y * Complex.I)

/-- Python `a % n` on floats (for `n > 0`): `a - n * floor(a / n)`. -/
noncomputable def pymod (a n : ℝ) : ℝ :=
  a - n * ⌊a / n⌋

/-- `wind_speed_era5(u_speed, v_speed) = np.sqrt((u_speed**2)+(v_speed**2))`. -/
noncomputable def wind_speed_era5 (u_speed v_speed : ℝ) : ℝ :=
  Real.sqrt (u_speed ^ 2 + v_speed ^ 2)

/-- `wind_dir_era5(u_speed, v_speed) =
(180+((180/np.pi)*np.arctan2(u_speed,v_speed)))%360`. -/
noncomputable def wind_dir_era5 (u_speed v_speed : ℝ) : ℝ :=
  pymod (180 + (180 / Real.pi) * arctan2 u_speed v_speed) 360

/-- `calculate_relative_humidity(T, Dp)` with the Magnus constants
`b = 17.625`, `c = 243.04`, transcribed from the notebook. -/
noncomputable def calculate_relative_humidity (T Dp : ℝ) : ℝ :=
  let b : ℝ := 17.625
  let c : ℝ := 243.04
  let numerator := Real.exp ((b * (Dp - 273.15)) / (c + (Dp - 273.15)))
  let denominator := Real.exp ((b * (T - 273.15)) / (c + (T - 273.15)))
  100 * (numerator / denominator)

/- ### Concrete instances used as witnesses -/

/-- The identity-like geotransform used by the concrete instances:
origin `(0, 0)`, pixel size `1 × 1`. -/
def gtUnit : GeoTransform :=
  { g0 := 0, g1 := 1, g2 := 0, g3 := 0, g4 := 0, g5 := 1 }

/-- A warped band holding a `GRIB_IDS` reference time and pixel values
`5` (column 0) and `6` (elsewhere). -/
def sampleBand : Band :=
  { metadata := [("GRIB_IDS", "CENTER=85 REF_TIME=2024-01-01T06Z")],
    read := fun c _ => if c = 0 then some 5 else some 6 }

/-- A concrete reprojected raster: one band, `2 × 1` pixels. -/
def warpedEx : RasterData :=
  { bands := [sampleBand], RasterXSize := 2, RasterYSize := 1,
    geotransform := gtUnit, projection := "EPSG:4326" }

/-- A source band whose only metadata is a `GRIB_ELEMENT` tag. -/
def bandTagged (tag : String) : Band :=
  { metadata := [("GRIB_ELEMENT", tag)], read := fun _ _ => none }

/-- A source GRIB dataset with one `WDIR`-tagged band whose black-box warp
result is `warpedEx`. -/
def dsEx : Dataset :=
  { data := { bands := [bandTagged "WDIR"], RasterXSize := 2, RasterYSize := 1,
              geotransform := gtUnit, projection := "" },
    warpOracle := fun _ _ => warpedEx }

/-- A source GRIB dataset with a single `TEMP`-tagged band (so a `WDIR`
query selects nothing); its black-box warp result is again `warpedEx`. -/
def dsTEMP : Dataset :=
  { data := { bands := [bandTagged "TEMP"], RasterXSize := 2, RasterYSize := 1,
              geotransform := gtUnit, projection := "" },
    warpOracle := fun _ _ => warpedEx }

/-- Point set whose first point `(5, 0)` lies outside the `2 × 1` raster
and whose second point `(0, 0)` lies inside. -/
def shpOut : Shapefile :=
  { layer := { points := [(5, 0), (0, 0)], spatialRef := "EPSG:4326" } }

/-- Point set with the single in-bounds point `(0, 0)`. -/
def shpOne : Shapefile :=
  { layer := { points := [(0, 0)], spatialRef := "EPSG:4326" } }

/-- Point set with the two in-bounds points `(0, 0)` and `(1, 0)`. -/
def shpTwo : Shapefile :=
  { layer := { points := [(0, 0), (1, 0)], spatialRef := "EPSG:4326" } }

/-- The Band-Selector test raster: three bands tagged
`WDIR`, `WDIR`, `TEMP`. -/
def rdWWT : RasterData :=
  { bands := [bandTagged "WDIR", bandTagged "WDIR", bandTagged "TEMP"],
    RasterXSize := 1, RasterYSize := 1, geotransform := gtUnit, projection := "" }

/-- A raster with a single `TEMP`-tagged band. -/
def rdTEMPonly : RasterData :=
  { bands := [bandTagged "TEMP"], RasterXSize := 1, RasterYSize := 1,
    geotransform := gtUnit, projection := "" }

/-- A raster whose first band has no `GRIB_ELEMENT` key at all and whose
second band is tagged `WDIR`. -/
def rdMissing : RasterData :=
  { bands := [{ metadata := [("OTHER", "x")], read := fun _ _ => none }, bandTagged "WDIR"],
    RasterXSize := 1, RasterYSize := 1, geotransform := gtUnit, projection := "" }

/- ### Helper instances and lemmas -/

instance {e a : Type} [DecidableEq e] [DecidableEq a] : DecidableEq (Except e a) := fun x y =>
  match x, y with
  | Except.error u, Except.error v =>
    if h : u = v then Decidable.isTrue (congrArg Except.error h)
    else Decidable.isFalse (fun hh => h (Except.error.inj hh))
  | Except.ok u, Except.ok v =>
    if h : u = v then Decidable.isTrue (congrArg Except.ok h)
    else Decidable.isFalse (fun hh => h (Except.ok.inj hh))
  | Except.error _, Except.ok _ => Decidable.isFalse (fun hh => Except.noConfusion hh)
  | Except.ok _, Except.error _ => Decidable.isFalse (fun hh => Except.noConfusion hh)

theorem lookup_exists_of_key_mem {m : List (String × String)} {k : String}
    (h : k ∈ m.map Prod.fst) : ∃ tag, m.lookup k = some tag := by
  induction m with
  | nil => cases h
  | cons p t ih =>
    obtain ⟨a, b⟩ := p
    by_cases hk : k = a
    · exact ⟨b, by simp [List.lookup, hk]⟩
    · have : k ∈ t.map Prod.fst := by
        simpa [hk] using h
      obtain ⟨tag, htag⟩ := ih this
      have hba : (k == a) = false := beq_eq_false_iff_ne.mpr hk
      exact ⟨tag, by simp [List.lookup, hba, htag]⟩

theorem lookup_eq_none_of_key_not_mem {m : List (String × String)} {k : String}
    (h : k ∉ m.map Prod.fst) : m.lookup k = none := by
  induction m with
  | nil => rfl
  | cons p t ih =>
    obtain ⟨a, b⟩ := p
    have hk : ¬k = a := by
      intro hka
      exact h (by simp [hka])
    have ht : k ∉ t.map Prod.fst := by
      intro hmem
      exact h (by simp [hmem])
    have hba : (k == a) = false := beq_eq_false_iff_ne.mpr hk
    simp [List.lookup, hba, ih ht]

/-- The Band Selector loop in closed form: the accumulator followed by the
matching successors of the remaining counters. -/
theorem get_bands_go_eq (d : RasterData) (v : String) (l acc : List ℕ) :
    get_bands_go d v l acc =
      acc ++ l.filterMap (fun j =>
        if (d.GetRasterBand (j + 1)).metadata.lookup "GRIB_ELEMENT" = some v
        then some (j + 1) else none) := by
  induction l generalizing acc with
  | nil => simp [get_bands_go]
  | cons j rest ih =>
    by_cases h : (d.GetRasterBand (j + 1)).metadata.lookup "GRIB_ELEMENT" = some v
    · simp [get_bands_go, h, ih, List.filterMap_cons]
    · simp [get_bands_go, h, ih, List.filterMap_cons]

/-- Membership in the Band Selector result characterised. -/
theorem get_bands_mem (d : RasterData) (v : String) (i : ℕ) :
    i ∈ get_bands_based_on_grib_element d v ↔
      1 ≤ i ∧ i ≤ d.RasterCount ∧
        (d.GetRasterBand i).metadata.lookup "GRIB_ELEMENT" = some v := by
  unfold get_bands_based_on_grib_element
  rw [get_bands_go_eq]
  simp only [List.nil_append, List.mem_filterMap, List.mem_range]
  constructor
  · rintro ⟨j, hj, hf⟩
    by_cases hP : (d.GetRasterBand (j + 1)).metadata.lookup "GRIB_ELEMENT" = some v
    · rw [if_pos hP] at hf
      obtain rfl : j + 1 = i := Option.some.inj hf
      exact ⟨by omega, by omega, hP⟩
    · rw [if_neg hP] at hf
      cases hf
  · rintro ⟨h1, h2, h3⟩
    refine ⟨i - 1, by omega, ?_⟩
    have hi : i - 1 + 1 = i := by omega
    rw [hi, if_pos h3]

/-- The Band Selector result is strictly increasing. -/
theorem get_bands_sorted (d : RasterData) (v : String) :
    List.Sorted (· < ·) (get_bands_based_on_grib_element d v) := by
  unfold get_bands_based_on_grib_element
  rw [get_bands_go_eq]
  simp only [List.nil_append]
  refine List.Pairwise.filterMap _ ?_ (List.pairwise_lt_range _)
  intro a b hab x hx y hy
  by_cases hPa : (d.GetRasterBand (a + 1)).metadata.lookup "GRIB_ELEMENT" = some v
  · by_cases hPb : (d.GetRasterBand (b + 1)).metadata.lookup "GRIB_ELEMENT" = some v
    · rw [if_pos hPa] at hx
      rw [if_pos hPb] at hy
      obtain rfl : a + 1 = x := Option.mem_some_iff.mp hx
      obtain rfl : b + 1 = y := Option.mem_some_iff.mp hy
      omega
    · rw [if_neg hPb] at hy
      cases hy
  · rw [if_neg hPa] at hx
    cases hx

/-- The exception-explicit Band Selector loop never raises and agrees with
the pure loop. -/
theorem get_bands_except_go_eq (d : RasterData) (v : String) (l acc : List ℕ) :
    get_bands_except_go d v l acc = Except.ok (get_bands_go d v l acc) := by
  induction l generalizing acc with
  | nil => rfl
  | cons j rest ih =>
    by_cases hm : "GRIB_ELEMENT" ∈ ((d.GetRasterBand (j + 1)).metadata).map Prod.fst
    · obtain ⟨tag, htag⟩ := lookup_exists_of_key_mem hm
      by_cases hv : tag = v
      · subst hv
        simp [get_bands_except_go, get_bands_go, hm, dict_getitem, htag, ih]
      · have hne : ¬(d.GetRasterBand (j + 1)).metadata.lookup "GRIB_ELEMENT" = some v := by
          rw [htag]
          simpa using hv
        simp [get_bands_except_go, get_bands_go, hm, dict_getitem, htag, hv, hne, ih]
    · have hnone := lookup_eq_none_of_key_not_mem hm
      have hne : ¬(d.GetRasterBand (j + 1)).metadata.lookup "GRIB_ELEMENT" = some v := by
        rw [hnone]
        simp
      simp [get_bands_except_go, get_bands_go, hm, hne, ih]

/-- When the per-point loop succeeds on a non-empty point list, the final
value of the loop variable `time` is the timestamp list the sampler produced
for the last point. -/
theorem sample_points_go_last (ds : RasterData) (gt : GeoTransform) (pts : List (ℚ × ℚ)) :
    ∀ (x y : ℚ) (vals : List (List ℤ)) (coords : List (ℚ × ℚ))
      (timeAll : List (List String)) (lt0 : Option (List String))
      (v : List (List ℤ)) (c : List (ℚ × ℚ)) (ta : List (List String)) (t : List String),
      sample_points_go ds gt (pts ++ [(x, y)]) vals coords timeAll lt0
        = Except.ok (v, c, ta, some t) →
      ∃ vs, get_raster_value_at_point ds gt x y = Except.ok (some (vs, t)) := by
  induction pts with
  | nil =>
    intro x y vals coords timeAll lt0 v c ta t h
    simp only [List.nil_append] at h
    cases hs : get_raster_value_at_point ds gt x y with
    | error e =>
      simp only [sample_points_go, hs] at h
      exact Except.noConfusion h
    | ok o =>
      cases o with
      | none =>
        simp only [sample_points_go, hs] at h
        exact Except.noConfusion h
      | some r =>
        obtain ⟨values, time⟩ := r
        simp only [sample_points_go, hs, Except.ok.injEq, Prod.mk.injEq,
          Option.some.injEq] at h
        obtain ⟨-, -, -, rfl⟩ := h
        exact ⟨values, rfl⟩
  | cons p rest ih =>
    intro x y vals coords timeAll lt0 v c ta t h
    obtain ⟨px, py⟩ := p
    simp only [List.cons_append] at h
    cases hs : get_raster_value_at_point ds gt px py with
    | error e =>
      simp only [sample_points_go, hs] at h
      exact Except.noConfusion h
    | ok o =>
      cases o with
      | none =>
        simp only [sample_points_go, hs] at h
        exact Except.noConfusion h
      | some r =>
        obtain ⟨values, time⟩ := r
        simp only [sample_points_go, hs] at h
        exact ih x y _ _ _ _ v c ta t h

/-- The Python float modulus by 360 always lands in `[0, 360)`. -/
theorem pymod_nonneg_lt (a : ℝ) : 0 ≤ pymod a 360 ∧ pymod a 360 < 360 := by
  have h1 : (⌊a / 360⌋ : ℝ) ≤ a / 360 := Int.floor_le _
  have h2 : a / 360 < ⌊a / 360⌋ + 1 := Int.lt_floor_add_one _
  have h3 : a / 360 * 360 = a := div_mul_cancel₀ a (by norm_num)
  unfold pymod
  constructor <;> nlinarith [h1, h2, h3]

/-- The Python float modulus fixes arguments already in `[0, 360)`. -/
theorem pymod_eq_self {a : ℝ} (h0 : 0 ≤ a) (h1 : a < 360) : pymod a 360 = a := by
  unfold pymod
  have hf : ⌊a / 360⌋ = 0 := by
    rw [Int.floor_eq_zero_iff, Set.mem_Ico]
    refine ⟨div_nonneg h0 (by norm_num), ?_⟩
    rw [div_lt_one (by norm_num : (0 : ℝ) < 360)]
    exact h1
  rw [hf]
  norm_num

theorem arctan2_zero_one : arctan2 0 1 = 0 := by
  unfold arctan2
  norm_num [Complex.arg_one]

theorem arctan2_one_zero : arctan2 1 0 = Real.pi / 2 := by
  unfold arctan2
  norm_num [Complex.arg_I]

theorem wind_dir_era5_zero_one : wind_dir_era5 0 1 = 180 := by
  unfold wind_dir_era5
  rw [arctan2_zero_one, mul_zero, add_zero]
  exact pymod_eq_self (by norm_num) (by norm_num)

theorem wind_dir_era5_one_zero : wind_dir_era5 1 0 = 270 := by
  unfold wind_dir_era5
  rw [arctan2_one_zero]
  have hpi : Real.pi ≠ 0 := Real.pi_ne_zero
  have h : (180 : ℝ) + 180 / Real.pi * (Real.pi / 2) = 270 := by
    field_simp
    ring
  rw [h]
  exact pymod_eq_self (by norm_num) (by norm_num)

/-- The relative humidity is antitone in the Magnus exponent of the
temperature: a smaller temperature exponent means a larger humidity. -/
theorem rh_compare (T1 T2 Dp : ℝ)
    (h : 17.625 * (T2 - 273.15) / (243.04 + (T2 - 273.15)) <
         17.625 * (T1 - 273.15) / (243.04 + (T1 - 273.15))) :
    calculate_relative_humidity T1 Dp < calculate_relative_humidity T2 Dp := by
  unfold calculate_relative_humidity
  have hN := Real.exp_pos (17.625 * (Dp - 273.15) / (243.04 + (Dp - 273.15)))
  have h2 := Real.exp_pos (17.625 * (T2 - 273.15) / (243.04 + (T2 - 273.15)))
  have hE := Real.exp_lt_exp.mpr h
  exact mul_lt_mul_of_pos_left (div_lt_div_of_pos_left hN h2 hE)
    (by norm_num : (0 : ℝ) < 100)

/- ### Claim theorems -/

/-- C7: for every opened multi-band dataset and identifier string, the Band
Selector returns exactly the 1-based indices of the bands whose
`GRIB_ELEMENT` metadata tag equals the identifier, in ascending band order;
when no band matches it returns the empty sequence rather than an error;
and on a dataset with bands tagged `WDIR`, `WDIR`, `TEMP` the query `WDIR`
returns `[1, 2]`. -/
theorem C7_band_selector_spec (d : RasterData) (v : String) :
    (∀ i : ℕ, i ∈ get_bands_based_on_grib_element d v ↔
        1 ≤ i ∧ i ≤ d.RasterCount ∧
          (d.GetRasterBand i).metadata.lookup "GRIB_ELEMENT" = some v) ∧
    List.Sorted (· < ·) (get_bands_based_on_grib_element d v) ∧
    ((∀ j : ℕ, j < d.RasterCount →
        (d.GetRasterBand (j + 1)).metadata.lookup "GRIB_ELEMENT" ≠ some v) →
      get_bands_based_on_grib_element d v = []) ∧
    get_bands_based_on_grib_element rdWWT "WDIR" = [1, 2] := by
  refine ⟨get_bands_mem d v, get_bands_sorted d v, ?_, by decide⟩
  intro hnone
  refine List.eq_nil_iff_forall_not_mem.mpr ?_
  intro i hi
  rw [get_bands_mem] at hi
  obtain ⟨h1, h2, h3⟩ := hi
  refine hnone (i - 1) (by omega) ?_
  have hsucc : i - 1 + 1 = i := by omega
  rw [hsucc]
  rw [h3]

/-- Witness for C7: the no-match hypothesis at a concrete `TEMP`-only
raster, and membership at the concrete `WDIR, WDIR, TEMP` raster. -/
theorem C7_witness :
    get_bands_based_on_grib_element rdTEMPonly "WDIR" = [] ∧
    2 ∈ get_bands_based_on_grib_element rdWWT "WDIR" :=
  ⟨(C7_band_selector_spec rdTEMPonly "WDIR").2.2.1 (by decide),
   ((C7_band_selector_spec rdWWT "WDIR").1 2).mpr (by decide)⟩

/-- C10: the Band Selector never raises — the exception-explicit rendering
always returns `Except.ok` of the pure result — and a band whose metadata
lacks the `GRIB_ELEMENT` key is silently excluded, exactly as a band with a
different tag would be. -/
theorem C10_selector_total (d : RasterData) (v : String) :
    get_bands_except d v = Except.ok (get_bands_based_on_grib_element d v) ∧
    ∀ i : ℕ, (d.GetRasterBand i).metadata.lookup "GRIB_ELEMENT" = none →
      i ∉ get_bands_based_on_grib_element d v := by
  refine ⟨get_bands_except_go_eq d v _ [], ?_⟩
  intro i hnone hi
  rw [get_bands_mem] at hi
  rw [hnone] at hi
  exact Option.noConfusion hi.2.2

/-- Witness for C10: on the raster whose first band lacks the key, the
exception-explicit selector returns `ok` and band 1 is excluded. -/
theorem C10_witness :
    get_bands_except rdMissing "WDIR"
        = Except.ok (get_bands_based_on_grib_element rdMissing "WDIR") ∧
    1 ∉ get_bands_based_on_grib_element rdMissing "WDIR" :=
  ⟨(C10_selector_total rdMissing "WDIR").1,
   (C10_selector_total rdMissing "WDIR").2 1 (by decide)⟩

/-- C9: `wind_dir_era5` is the prescribed formula and its value always lies
in the half-open interval `[0, 360)`. -/
theorem C9_wind_dir_range (u v : ℝ) :
    wind_dir_era5 u v = pymod (180 + (180 / Real.pi) * arctan2 u v) 360 ∧
    0 ≤ wind_dir_era5 u v ∧ wind_dir_era5 u v < 360 :=
  ⟨rfl, (pymod_nonneg_lt _).1, (pymod_nonneg_lt _).2⟩

/-- C2 counterexample: `wind_dir_era5 1 0` is `270`, not the `90` the claim
prescribes (a pure positive u-component wind comes from the west). -/
theorem C2_counterexample : wind_dir_era5 1 0 = 270 ∧ (270 : ℝ) ≠ 90 :=
  ⟨wind_dir_era5_one_zero, by norm_num⟩

/-- C2 amended: `wind_dir_era5 0 1 = 180` and `wind_dir_era5 1 0 = 270`. -/
theorem C2_amended : wind_dir_era5 0 1 = 180 ∧ wind_dir_era5 1 0 = 270 :=
  ⟨wind_dir_era5_zero_one, wind_dir_era5_one_zero⟩

/-- C4: `calculate_relative_humidity` is exactly the Magnus-formula ratio
with `b = 17.625`, `c = 243.04`, and its output is not clamped to
`[0, 100]`: a dew point above the temperature yields a value above 100. -/
theorem C4_relative_humidity_formula :
    (∀ T Dp : ℝ, calculate_relative_humidity T Dp =
        100 * (Real.exp ((17.625 * (Dp - 273.15)) / (243.04 + (Dp - 273.15))) /
          Real.exp ((17.625 * (T - 273.15)) / (243.04 + (T - 273.15))))) ∧
    100 < calculate_relative_humidity 293.15 303.15 := by
  constructor
  · intro T Dp
    rfl
  · unfold calculate_relative_humidity
    have hlt : (17.625 * ((293.15 : ℝ) - 273.15)) / (243.04 + (293.15 - 273.15)) <
        (17.625 * ((303.15 : ℝ) - 273.15)) / (243.04 + (303.15 - 273.15)) := by
      norm_num
    have hpos := Real.exp_pos ((17.625 * ((293.15 : ℝ) - 273.15)) / (243.04 + (293.15 - 273.15)))
    have hexp := Real.exp_lt_exp.mpr hlt
    rw [lt_mul_iff_one_lt_right (by norm_num : (0 : ℝ) < 100), one_lt_div hpos]
    exact hexp

/-- C5 counterexample: for the fixed dew point `Dp = 0` the map
`T ↦ calculate_relative_humidity T Dp` is not strictly decreasing on all of
`Dp < T`: the Magnus denominator `243.04 + (T - 273.15)` changes sign at
`T = 30.11`, and the humidity at `T = 20` is smaller than at `T = 40`. -/
theorem C5_counterexample :
    ¬ StrictAntiOn (fun T => calculate_relative_humidity T 0) (Set.Ioi (0 : ℝ)) := by
  intro h
  have h1 : calculate_relative_humidity 20 0 < calculate_relative_humidity 40 0 := by
    apply rh_compare 20 40 0
    have ha : 17.625 * ((40 : ℝ) - 273.15) / (243.04 + (40 - 273.15)) < 0 := by
      apply div_neg_of_neg_of_pos <;> norm_num
    have hb : (0 : ℝ) < 17.625 * ((20 : ℝ) - 273.15) / (243.04 + (20 - 273.15)) := by
      apply div_pos_of_neg_of_neg <;> norm_num
    linarith
  have h2 := h (Set.mem_Ioi.mpr (by norm_num : (0 : ℝ) < 20))
    (Set.mem_Ioi.mpr (by norm_num : (0 : ℝ) < 40)) (by norm_num : (20 : ℝ) < 40)
  simp only at h2
  exact absurd h1 (not_lt.mpr (le_of_lt h2))

/-- C5 amended: for fixed dew point `Dp`, the relative humidity is strictly
decreasing in the temperature on the region where the Magnus denominator of
the temperature is positive, i.e. for `Dp < T1 < T2` with
`0 < 243.04 + (T1 - 273.15)`. -/
theorem C5_amended (Dp T1 T2 : ℝ) (hDp : Dp < T1)
    (hc : 0 < 243.04 + (T1 - 273.15)) (h12 : T1 < T2) :
    calculate_relative_humidity T2 Dp < calculate_relative_humidity T1 Dp := by
  apply rh_compare T2 T1 Dp
  have hc2 : 0 < 243.04 + (T2 - 273.15) := by linarith
  rw [div_lt_div_iff₀ hc hc2]
  nlinarith

/-- Witness for C5: the amended monotonicity at
`Dp = 283.15, T1 = 293.15, T2 = 303.15`. -/
theorem C5_witness :
    calculate_relative_humidity 303.15 283.15 < calculate_relative_humidity 293.15 283.15 :=
  C5_amended 283.15 293.15 303.15 (by norm_num) (by norm_num) (by norm_num)

/-- C8 counterexample: the truncating `int()` does not coincide with the
floor semantics of the affine inverse on negative fractional quotients:
with the unit geotransform and `x = -1/2` truncation yields column `0`
while the floor of the quotient is `-1`. -/
theorem C8_counterexample :
    pixel_col gtUnit (-1 / 2) = 0 ∧ ⌊(((-1 / 2 : ℚ)) - gtUnit.g0) / gtUnit.g1⌋ = -1 := by
  constructor <;> with_unfolding_all decide

/-- C8 amended: the sampler computes `col = int((x - gt[0]) / gt[1])` and
`row = int((y - gt[3]) / gt[5])` by truncating division, and the truncation
coincides with the floor of the affine inverse whenever the pixel quotient
is non-negative. -/
theorem C8_amended (gt : GeoTransform) (x y : ℚ)
    (hx : 0 ≤ (x - gt.g0) / gt.g1) (hy : 0 ≤ (y - gt.g3) / gt.g5) :
    pixel_col gt x = pyInt ((x - gt.g0) / gt.g1) ∧
    pixel_row gt y = pyInt ((y - gt.g3) / gt.g5) ∧
    pixel_col gt x = ⌊(x - gt.g0) / gt.g1⌋ ∧
    pixel_row gt y = ⌊(y - gt.g3) / gt.g5⌋ := by
  refine ⟨rfl, rfl, ?_, ?_⟩
  · unfold pixel_col pyInt
    rw [if_pos hx]
  · unfold pixel_row pyInt
    rw [if_pos hy]

/-- Witness for C8: the amended statement at the unit geotransform and the
in-bounds point `(5, 2)`. -/
theorem C8_witness :
    pixel_col gtUnit 5 = ⌊((5 : ℚ) - gtUnit.g0) / gtUnit.g1⌋ ∧
    pixel_row gtUnit 2 = ⌊((2 : ℚ) - gtUnit.g3) / gtUnit.g5⌋ :=
  ⟨(C8_amended gtUnit 5 2 (by with_unfolding_all decide)
      (by with_unfolding_all decide)).2.2.1,
   (C8_amended gtUnit 5 2 (by with_unfolding_all decide)
      (by with_unfolding_all decide)).2.2.2⟩

/-- C1: at the out-of-bounds point `(5, 0)` of a `2 × 1` raster the Point
Sampler itself returns the `None` sentinel without raising, but the
Pipeline Orchestrator does **not** continue with the remaining in-bounds
point: unpacking the sentinel raises `TypeError` and aborts the whole
pipeline. -/
theorem C1_pipeline_crash :
    pixel_col gtUnit 5 ≥ warpedEx.RasterXSize ∧
    get_raster_value_at_point warpedEx gtUnit 5 0 = Except.ok none ∧
    get_point_values_of_CERRA_grib shpOut dsEx "WDIR" =
      Except.error "TypeError: cannot unpack non-iterable NoneType object" := by
  refine ⟨?_, ?_, ?_⟩ <;> with_unfolding_all decide

/-- C3: when no band matches the requested variable the orchestrator does
**not** propagate a failure: the selection below is empty, yet the pipeline
calls the Reprojector with the empty band list and runs to completion,
returning an ordinary result. -/
theorem C3_reprojects_zero_bands :
    get_bands_based_on_grib_element dsTEMP.data "WDIR" = [] ∧
    get_point_values_of_CERRA_grib shpOne dsTEMP "WDIR" =
      Except.ok ([[5]], [(0, 0)], ["2024-01-01T06"]) := by
  constructor <;> with_unfolding_all decide

/-- C6: whenever the orchestrator returns a triple for a non-empty point
set, the pipeline-level timestamp sequence of the triple is exactly the
timestamp sequence the Point Sampler produced for the last processed point;
the per-point sequences accumulated in `time_all_points` are dropped. -/
theorem C6_last_timestamp (shp : Shapefile) (g : Dataset) (mv : String)
    (ps : List (ℚ × ℚ)) (x y : ℚ) (vals : List (List ℤ)) (coords : List (ℚ × ℚ))
    (t : List String)
    (hpts : shp.GetLayer.points = ps ++ [(x, y)])
    (hok : get_point_values_of_CERRA_grib shp g mv = Except.ok (vals, coords, t)) :
    ∃ vs, get_raster_value_at_point (pipeline_warped shp g mv)
        (pipeline_warped shp g mv).GetGeoTransform x y = Except.ok (some (vs, t)) := by
  unfold pipeline_warped
  unfold get_point_values_of_CERRA_grib at hok
  dsimp only at hok
  rw [hpts] at hok
  split at hok
  · exact Except.noConfusion hok
  · split at hok
    · exact Except.noConfusion hok
    · rename_i va co ta ti ts heq
      injection hok with h
      simp only [Prod.mk.injEq] at h
      obtain ⟨rfl, rfl, rfl⟩ := h
      exact sample_points_go_last _ _ ps x y [] [] [] none va co ta ts heq

/-- Witness for C6: on the two-point set over the concrete dataset the
returned timestamp list is the one sampled at the last point `(1, 0)`. -/
theorem C6_witness :
    ∃ vs, get_raster_value_at_point (pipeline_warped shpTwo dsEx "WDIR")
        (pipeline_warped shpTwo dsEx "WDIR").GetGeoTransform 1 0
      = Except.ok (some (vs, ["2024-01-01T06"])) :=
  C6_last_timestamp shpTwo dsEx "WDIR" [(0, 0)] 1 0 [[5], [6]] [(0, 0), (1, 0)]
    ["2024-01-01T06"] (by with_unfolding_all decide) (by with_unfolding_all decide)
